import Mathlib

/-!
# cease: a power-control agent driven by broker messages

A shallow embedding of `cease.go`.  The program talks to the outside world
(the log, the AMQP broker, the clock, the OS process table); every such call
is recorded as an `Event` in a chronological trace, and what the outside world
answers is read from an `Env`, a script of answers indexed by the number of
earlier calls of the same kind.  A Go function becomes a function on traces
that yields an `Outcome`: it returns, it panics, or it ends the process.

Go strings and byte slices are Lean strings.  Library calls (`json.Unmarshal`,
`amqp`, `exec`, `time`, `log`) are not part of the program: their answers come
from the `Env`, their invocations go to the trace.
-/

namespace Cease

/-! ## Data model -/

/-- Go `type RadiodanCommand struct { Action string; CorrelationId string }`. -/
structure RadiodanCommand where
  Action : String
  CorrelationId : String
deriving DecidableEq, Repr

/-- A Go `error` value: `none` is `nil`, `some s` an error whose text is `s`. -/
abbrev GoError := Option String

/-- The fields of `amqp.Delivery` that the program reads. -/
structure Delivery where
  Body : String
  ReplyTo : String
deriving DecidableEq, Repr

/-- The fields of `amqp.Publishing` that the program sets. -/
structure Publishing where
  DeliveryMode : Nat
  Timestamp : Nat
  ContentType : String
  Body : String
deriving DecidableEq, Repr

/-- The library constant `amqp.Persistent`. -/
def Persistent : Nat := 2

/-- One call into the outside world, with the arguments the program passed. -/
inductive Event where
  | printf (format : String) (args : List String)
  | println (args : List String)
  | dial (url : String)
  | sleep (seconds : Nat)
  | openChannel (conn : Nat)
  | exchangeDeclare (ch : Nat) (name kind : String)
      (durable autoDelete internal noWait : Bool)
  | queueDeclare (ch : Nat) (name : String)
      (durable autoDelete exclusive noWait : Bool)
  | queueBind (ch : Nat) (name key exchange : String) (noWait : Bool)
  | consume (ch : Nat) (queue consumer : String)
      (autoAck exclusive noLocal noWait : Bool)
  | now
  | publish (ch : Nat) (exchange key : String) (mandatory immediate : Bool)
      (msg : Publishing)
  | run (path : String) (args : List String)
  | crash (value : String)
deriving DecidableEq, Repr

/-- How a Go call ends: it returns a value, it panics with a value, the process
ends with a status (`os.Exit`, or the runtime after an unrecovered panic), or
the model's loop budget is used up. -/
inductive Outcome (α : Type) where
  | ret (a : α)
  | panic (value : String)
  | exit (code : Nat)
  | outOfFuel
deriving DecidableEq, Repr

/-- The answers of the outside world.  `Dial n`, `Channel n`, `Now n`,
`Publish n` and `CombinedOutput n` answer the call number `n` (from 0) of that
kind; `dryRun` is the global flag set once from the command line. -/
structure Env where
  dryRun : Bool
  Unmarshal : String → RadiodanCommand → RadiodanCommand × GoError
  Dial : Nat → GoError
  Channel : Nat → GoError
  ExchangeDeclare : GoError
  QueueDeclare : String × GoError
  QueueBind : GoError
  Consume : List Delivery × GoError
  Now : Nat → Nat
  Publish : Nat → GoError
  CombinedOutput : Nat → String × GoError

/-- A Go computation: from the trace so far to an outcome and the trace after. -/
def Go (α : Type) : Type := List Event → Outcome α × List Event

/-- Return normally. -/
def Go.pure {α : Type} (a : α) : Go α := fun t => (Outcome.ret a, t)

/-- Sequencing: the continuation runs only when the first part returns. -/
def Go.bind {α β : Type} (m : Go α) (f : α → Go β) : Go β := fun t =>
  match m t with
  | (Outcome.ret a, t1) => f a t1
  | (Outcome.panic v, t1) => (Outcome.panic v, t1)
  | (Outcome.exit c, t1) => (Outcome.exit c, t1)
  | (Outcome.outOfFuel, t1) => (Outcome.outOfFuel, t1)

instance : Monad Go where
  pure := Go.pure
  bind := Go.bind

/-- Record one call into the outside world. -/
def emit (e : Event) : Go Unit := fun t => (Outcome.ret (), t ++ [e])

/-- The trace so far. -/
def history : Go (List Event) := fun t => (Outcome.ret t, t)

/-- Go `panic(v)`. -/
def goPanic {α : Type} (v : String) : Go α := fun t => (Outcome.panic v, t)

/-- Go `os.Exit(code)`: the process ends, no deferred call runs. -/
def osExit {α : Type} (code : Nat) : Go α := fun t => (Outcome.exit code, t)

/-- Go `log.Printf(format, args...)`. -/
def logPrintf (format : String) (args : List String) : Go Unit :=
  emit (Event.printf format args)

/-- Go `log.Println(args...)`. -/
def logPrintln (args : List String) : Go Unit :=
  emit (Event.println args)

/-- Go `log.Fatalf(format, args...)`: `Printf` followed by `os.Exit(1)`. -/
def logFatalf {α : Type} (format : String) (args : List String) : Go α := do
  logPrintf format args
  osExit 1

/-- An `amqp.Dial` call. -/
def Event.isDial : Event → Bool
  | Event.dial _ => true
  | _ => false

/-- A `conn.Channel` call. -/
def Event.isOpenChannel : Event → Bool
  | Event.openChannel _ => true
  | _ => false

/-- A `time.Now` call. -/
def Event.isNow : Event → Bool
  | Event.now => true
  | _ => false

/-- A `Publish` call. -/
def Event.isPublish : Event → Bool
  | Event.publish _ _ _ _ _ _ => true
  | _ => false

/-- A `CombinedOutput` call: an OS command is spawned and waited for. -/
def Event.isRun : Event → Bool
  | Event.run _ _ => true
  | _ => false

/-- A `time.Sleep` call. -/
def Event.isSleep : Event → Bool
  | Event.sleep _ => true
  | _ => false

/-- Number of `amqp.Dial` calls in a trace. -/
def dials (t : List Event) : Nat := t.countP Event.isDial

/-- Number of `conn.Channel` calls in a trace. -/
def channels (t : List Event) : Nat := t.countP Event.isOpenChannel

/-- Number of `time.Now` calls in a trace. -/
def clockReads (t : List Event) : Nat := t.countP Event.isNow

/-- Number of `Publish` calls in a trace. -/
def publishCalls (t : List Event) : Nat := t.countP Event.isPublish

/-- Number of `CombinedOutput` calls in a trace. -/
def runs (t : List Event) : Nat := t.countP Event.isRun

/-! ## The program -/

/-- Go `failOnError`: on a non-nil error `log.Fatalf` ends the process; the
`panic` that follows it in the source is kept, after the `Fatalf`. -/
def failOnError (err : GoError) (msg : String) : Go Unit :=
  match err with
  | some e => do
      (logFatalf "%s: %s" [msg, e] : Go Unit)
      goPanic (msg ++ ": " ++ e)
  | none => Go.pure ()

/-- Go `defer func() { if r := recover(); r != nil { handler(r) } }()` around
`body`, in a function whose results are unnamed: a panic of `body` is stopped,
`handler` runs and the function returns the zero value of its results. -/
def deferRecover {α : Type} (handler : String → Go Unit) (zero : α) (body : Go α) :
    Go α := fun t =>
  match body t with
  | (Outcome.panic v, t1) => (do handler v; Go.pure zero) t1
  | r => r

/-- Go `processMessage`. -/
def processMessage (env : Env) (msg : Delivery) : Go (RadiodanCommand × GoError) :=
  deferRecover (fun r => logPrintln ["[!] Msg processing failed:", r])
    (RadiodanCommand.mk "" "", none) do
      let cmd := RadiodanCommand.mk "" ""
      let (cmd, err) := env.Unmarshal msg.Body cmd
      failOnError err "[!] Malformed Radiodan Command"
      logPrintf "[x] Received action: %s" [cmd.Action]
      return (cmd, err)

/-- Go `%t`. -/
def fmtBool (b : Bool) : String := if b then "true" else "false"

/-- Go `fmt.Sprintf("{\"error\": %t, \"correlationId\": \"%s\"}", parseError, id)`. -/
def response (parseError : Bool) (correlationId : String) : String :=
  "\x7b\"error\": " ++ fmtBool parseError ++ ", \"correlationId\": \""
    ++ correlationId ++ "\"\x7d"

/-- Go `replyToMessage`. -/
def replyToMessage (env : Env) (replyChannel : Nat) (msg : Delivery)
    (cmd : RadiodanCommand) (parseError : Bool) : Go Unit := do
  let response := response parseError cmd.CorrelationId
  let tick ← history
  emit Event.now
  let reply : Publishing :=
    { DeliveryMode := Persistent
      Timestamp := env.Now (clockReads tick)
      ContentType := "text/plain"
      Body := response }
  let sent ← history
  emit (Event.publish replyChannel "" msg.ReplyTo false false reply)
  let err := env.Publish (publishCalls sent)
  failOnError err "[!] Could not reply to message"
  logPrintln ["[*] Replying to message", response]

/-- Go `strings.TrimRight(s, "\n")`. -/
def trimRightNewlines (s : String) : String :=
  String.mk (s.data.reverse.dropWhile (fun c => c == '\n')).reverse

/-- Go `execCmd`. -/
def execCmd (env : Env) (cmd : RadiodanCommand) : Go Unit := do
  let shutdownFlag ←
    if cmd.Action = "restart" then Go.pure "-r"
    else if cmd.Action = "shutdown" then Go.pure "-h"
    else goPanic ("Action " ++ cmd.Action ++ " is neither restart nor shutdown")
  let (path, args) :=
    if env.dryRun then ("/bin/echo", ["/bin/echo", "shutdown", shutdownFlag, "now"])
    else ("/sbin/shutdown", ["/sbin/shutdown", shutdownFlag, "now"])
  let started ← history
  emit (Event.run path args)
  let (output, err) := env.CombinedOutput (runs started)
  let outputStr := trimRightNewlines output
  failOnError err "Could not exec shutdown"
  logPrintln ["[x] exec:", outputStr]

/-- The body of the consumer loop `for m := range msgs { ... }`. -/
def handleDelivery (env : Env) (replyChannel : Nat) (m : Delivery) : Go Unit := do
  let (cmd, err) ← processMessage env m
  if err = none then
    replyToMessage env replyChannel m cmd false
    execCmd env cmd
  else
    replyToMessage env replyChannel m cmd true

/-- The consumer loop `for m := range msgs`, over the deliveries of the channel. -/
def consumeLoop (env : Env) (replyChannel : Nat) : List Delivery → Go Unit
  | [] => Go.pure ()
  | m :: ms => do
      handleDelivery env replyChannel m
      consumeLoop env replyChannel ms

/-- The goroutine `go func() { for m := range msgs { ... } }()`: a panic that
nothing recovers ends the process with status 2 after the runtime reports it.
`Outcome.ret` means that every delivery was handled and the process lives on. -/
def consumer (env : Env) (replyChannel : Nat) (msgs : List Delivery) : Go Unit := fun t =>
  match consumeLoop env replyChannel msgs t with
  | (Outcome.panic v, t1) => (Outcome.exit 2, t1 ++ [Event.crash v])
  | r => r

/-- The connect loop `for connected != true { ... }` of `listenForCommand`, with
its loop variables `connected` and `conn`; `fuel` bounds the number of passes
through the loop body.  A connection is named by the number of the `Dial` call
that returned it.  (`defer conn.Close()` is registered here in the source;
`listenForCommand` never returns, so it never runs.) -/
def connectLoop (env : Env) (uri : String) : Nat → Bool → Option Nat → Go (Option Nat)
  | 0, connected, conn =>
      if connected != true then fun t => (Outcome.outOfFuel, t) else Go.pure conn
  | fuel + 1, connected, conn =>
      if connected != true then do
        let before ← history
        emit (Event.dial uri)
        let tryConn := dials before
        match env.Dial tryConn with
        | some err => do
            logPrintf "[!] Cannot connect" [err]
            logPrintf "[*] Retry in 3 seconds" []
            emit (Event.sleep 3)
            connectLoop env uri fuel connected conn
        | none => do
            logPrintf "[*] Connected to %s" [uri]
            connectLoop env uri fuel true (some tryConn)
      else Go.pure conn

/-- Go `conn.Channel()`; a channel is named by the number of the call that
opened it.  A nil `conn` is a nil dereference. -/
def openChannel (env : Env) (conn : Option Nat) : Go (Nat × GoError) :=
  match conn with
  | none => goPanic "invalid memory address or nil pointer dereference"
  | some c => do
      let before ← history
      emit (Event.openChannel c)
      return (channels before, env.Channel (channels before))

/-- The part of `listenForCommand` after the connect loop: the two channels,
the exchange, the queue, the binding, the consumer and the goroutine.  The
goroutine is run after the main path has logged that it waits: of the
interleavings of the two, the one in which that log line comes first. -/
def setupAndConsume (env : Env) (conn : Option Nat) : Go Unit := do
  let exchangeName := "radiodan"
  let routingKey := "command.device.shutdown"
  let (consumeChannel, err) ← openChannel env conn
  failOnError err "[!] Failed to open a channel"
  let (replyChannel, err) ← openChannel env conn
  failOnError err "[!] Could not create reply channel"
  emit (Event.exchangeDeclare consumeChannel exchangeName "topic" true false false false)
  failOnError env.ExchangeDeclare "[!] Failed to declare an exchange"
  emit (Event.queueDeclare consumeChannel "" false false true false)
  let (queueName, err) := env.QueueDeclare
  failOnError err "[!] Failed to declare a queue"
  emit (Event.queueBind consumeChannel queueName routingKey "radiodan" false)
  failOnError env.QueueBind "[!] Failed to bind a queue"
  emit (Event.consume consumeChannel queueName "" true false false false)
  let (msgs, err) := env.Consume
  failOnError err "[!] Failed to register a consumer"
  logPrintln ["[*] Consuming", queueName]
  logPrintf "[*] Waiting for commands" []
  consumer env replyChannel msgs

/-- Go `fmt.Sprintf("amqp://%s:%d", host, port)`. -/
def amqpUri (host : String) (port : Int) : String :=
  "amqp://" ++ host ++ ":" ++ toString port

/-- Go `listenForCommand`: the connect loop, then the setup and the consumer. -/
def listenForCommand (env : Env) (host : String) (port : Int) (fuel : Nat) : Go Unit := do
  let conn ← connectLoop env (amqpUri host port) fuel false none
  setupAndConsume env conn

/-! ## The JSON decoder in the `Unmarshal` slot

`json.Unmarshal` is library code; the program above takes it as `Env.Unmarshal`.
What follows is a decoder after `encoding/json`, restricted to the target type
`RadiodanCommand`, for running the program on concrete message bodies. -/

/-- A scanned JSON value. -/
inductive JSON where
  | null
  | bool (b : Bool)
  | number
  | string (s : String)
  | array (items : List JSON)
  | object (members : List (String × JSON))

/-- The scanner's `isSpace`. -/
def isSpace (c : Char) : Bool := c == ' ' || c == '\t' || c == '\r' || c == '\n'

/-- Drop leading JSON white space. -/
def skipSpace : List Char → List Char
  | [] => []
  | c :: cs => if isSpace c then skipSpace cs else c :: cs

/-- A decimal digit. -/
def isDigit (c : Char) : Bool := decide (48 ≤ c.toNat ∧ c.toNat ≤ 57)

/-- Drop leading decimal digits. -/
def skipDigits : List Char → List Char
  | [] => []
  | c :: cs => if isDigit c then skipDigits cs else c :: cs

/-- Value of a hexadecimal digit. -/
def hexVal (c : Char) : Option Nat :=
  if 48 ≤ c.toNat ∧ c.toNat ≤ 57 then some (c.toNat - 48)
  else if 97 ≤ c.toNat ∧ c.toNat ≤ 102 then some (c.toNat - 87)
  else if 65 ≤ c.toNat ∧ c.toNat ≤ 70 then some (c.toNat - 55)
  else none

/-- Decoder `getu4`: the code unit of a leading `\uXXXX`, and what follows it. -/
def getu4 : List Char → Option (Nat × List Char)
  | '\\' :: 'u' :: a :: b :: c :: d :: rest =>
      match hexVal a, hexVal b, hexVal c, hexVal d with
      | some a, some b, some c, some d => some (((a * 16 + b) * 16 + c) * 16 + d, rest)
      | _, _, _, _ => none
  | _ => none

/-- Scan and unquote a string literal whose opening quote has been read; `acc`
holds the characters so far, newest first.  Control characters and unknown
escapes are syntax errors; a lone surrogate escape becomes U+FFFD. -/
def parseString : Nat → List Char → List Char → Option (String × List Char)
  | 0, _, _ => none
  | fuel + 1, acc, cs =>
      match cs with
      | [] => none
      | '"' :: rest => some (String.mk acc.reverse, rest)
      | '\\' :: '"' :: rest => parseString fuel ('"' :: acc) rest
      | '\\' :: '\\' :: rest => parseString fuel ('\\' :: acc) rest
      | '\\' :: '/' :: rest => parseString fuel ('/' :: acc) rest
      | '\\' :: 'b' :: rest => parseString fuel (Char.ofNat 8 :: acc) rest
      | '\\' :: 'f' :: rest => parseString fuel (Char.ofNat 12 :: acc) rest
      | '\\' :: 'n' :: rest => parseString fuel ('\n' :: acc) rest
      | '\\' :: 'r' :: rest => parseString fuel ('\r' :: acc) rest
      | '\\' :: 't' :: rest => parseString fuel ('\t' :: acc) rest
      | '\\' :: 'u' :: _ =>
          match getu4 cs with
          | none => none
          | some (rr, rest) =>
              if 0xD800 ≤ rr ∧ rr < 0xE000 then
                match getu4 rest with
                | some (rr1, rest1) =>
                    if rr < 0xDC00 ∧ 0xDC00 ≤ rr1 ∧ rr1 < 0xE000 then
                      parseString fuel
                        (Char.ofNat ((rr - 0xD800) * 1024 + (rr1 - 0xDC00) + 0x10000) :: acc)
                        rest1
                    else parseString fuel (Char.ofNat 0xFFFD :: acc) rest
                | none => parseString fuel (Char.ofNat 0xFFFD :: acc) rest
              else parseString fuel (Char.ofNat rr :: acc) rest
      | '\\' :: _ => none
      | c :: rest => if c.toNat < 0x20 then none else parseString fuel (c :: acc) rest

/-- Scan the exponent of a number: what follows it, if it is well formed. -/
def parseExponent : List Char → Option (List Char)
  | c :: rest =>
      if c == 'e' || c == 'E' then
        let digits := match rest with
          | '+' :: r => r
          | '-' :: r => r
          | r => r
        match digits with
        | d :: r => if isDigit d then some (skipDigits r) else none
        | [] => none
      else some (c :: rest)
  | [] => some []

/-- Scan the fraction and exponent of a number. -/
def parseFraction : List Char → Option (List Char)
  | '.' :: d :: rest => if isDigit d then parseExponent (skipDigits rest) else none
  | '.' :: [] => none
  | cs => parseExponent cs

/-- Scan a number: what follows it, if it is well formed. -/
def parseNumber (cs : List Char) : Option (List Char) :=
  let unsigned := match cs with
    | '-' :: r => r
    | r => r
  match unsigned with
  | [] => none
  | c :: rest =>
      if c == '0' then parseFraction rest
      else if isDigit c then parseFraction (skipDigits rest)
      else none

/-- The scanner's `maxNestingDepth`. -/
def maxNestingDepth : Nat := 10000

mutual
/-- Scan one JSON value at nesting depth `depth`. -/
def parseValue : Nat → Nat → List Char → Option (JSON × List Char)
  | 0, _, _ => none
  | fuel + 1, depth, cs =>
      match skipSpace cs with
      | '\x7b' :: rest =>
          if maxNestingDepth < depth + 1 then none
          else match skipSpace rest with
            | '\x7d' :: rest1 => some (JSON.object [], rest1)
            | rest1 =>
                match parseMembers fuel (depth + 1) rest1 with
                | some (ms, rest2) => some (JSON.object ms, rest2)
                | none => none
      | '[' :: rest =>
          if maxNestingDepth < depth + 1 then none
          else match skipSpace rest with
            | ']' :: rest1 => some (JSON.array [], rest1)
            | rest1 =>
                match parseItems fuel (depth + 1) rest1 with
                | some (vs, rest2) => some (JSON.array vs, rest2)
                | none => none
      | '"' :: rest =>
          match parseString (rest.length + 1) [] rest with
          | some (s, rest1) => some (JSON.string s, rest1)
          | none => none
      | 't' :: 'r' :: 'u' :: 'e' :: rest => some (JSON.bool true, rest)
      | 'f' :: 'a' :: 'l' :: 's' :: 'e' :: rest => some (JSON.bool false, rest)
      | 'n' :: 'u' :: 'l' :: 'l' :: rest => some (JSON.null, rest)
      | cs1 =>
          match parseNumber cs1 with
          | some rest => some (JSON.number, rest)
          | none => none
/-- Scan the members of a non-empty object, up to its closing brace. -/
def parseMembers : Nat → Nat → List Char → Option (List (String × JSON) × List Char)
  | 0, _, _ => none
  | fuel + 1, depth, cs =>
      match skipSpace cs with
      | '"' :: rest =>
          match parseString (rest.length + 1) [] rest with
          | none => none
          | some (key, rest1) =>
              match skipSpace rest1 with
              | ':' :: rest2 =>
                  match parseValue fuel depth rest2 with
                  | none => none
                  | some (v, rest3) =>
                      match skipSpace rest3 with
                      | ',' :: rest4 =>
                          match parseMembers fuel depth rest4 with
                          | some (ms, rest5) => some ((key, v) :: ms, rest5)
                          | none => none
                      | '\x7d' :: rest4 => some ([(key, v)], rest4)
                      | _ => none
              | _ => none
      | _ => none
/-- Scan the items of a non-empty array, up to its closing bracket. -/
def parseItems : Nat → Nat → List Char → Option (List JSON × List Char)
  | 0, _, _ => none
  | fuel + 1, depth, cs =>
      match parseValue fuel depth cs with
      | none => none
      | some (v, rest) =>
          match skipSpace rest with
          | ',' :: rest1 =>
              match parseItems fuel depth rest1 with
              | some (vs, rest2) => some (v :: vs, rest2)
              | none => none
          | ']' :: rest1 => some ([v], rest1)
          | _ => none
end

/-- ASCII case folding; the two field names hold no letter that a non-ASCII
character folds to. -/
def foldChar (c : Char) : Char :=
  if 65 ≤ c.toNat ∧ c.toNat ≤ 90 then Char.ofNat (c.toNat + 32) else c

/-- Case-insensitive match of an object key with a field name. -/
def equalFold (key name : String) : Bool :=
  key.data.map foldChar == name.data.map foldChar

/-- The field an object key names: an exact match first, then a case-insensitive one. -/
def findField (key : String) : Option Bool :=
  if key = "Action" then some false
  else if key = "CorrelationId" then some true
  else if equalFold key "Action" then some false
  else if equalFold key "CorrelationId" then some true
  else none

/-- Name of the JSON kind of a value, as `UnmarshalTypeError` prints it. -/
def JSON.kind : JSON → String
  | JSON.null => "null"
  | JSON.bool _ => "bool"
  | JSON.number => "number"
  | JSON.string _ => "string"
  | JSON.array _ => "array"
  | JSON.object _ => "object"

/-- Store the members of an object into the command, in order: a string sets
the field its key names, `null` and unknown keys are skipped, any other value
for a known field is a type error, of which the first is kept. -/
def storeMembers : List (String × JSON) → RadiodanCommand → GoError → RadiodanCommand × GoError
  | [], cmd, err => (cmd, err)
  | (key, v) :: ms, cmd, err =>
      match findField key, v with
      | none, _ => storeMembers ms cmd err
      | some false, JSON.string s => storeMembers ms (RadiodanCommand.mk s cmd.CorrelationId) err
      | some true, JSON.string s => storeMembers ms (RadiodanCommand.mk cmd.Action s) err
      | some _, JSON.null => storeMembers ms cmd err
      | some f, other =>
          storeMembers ms cmd
            (match err with
             | some e => some e
             | none => some ("json: cannot unmarshal " ++ other.kind ++
                 " into Go struct field RadiodanCommand." ++
                 (if f then "CorrelationId" else "Action") ++ " of type string"))

/-- Decoder for `json.Unmarshal(data, &cmd)` with `cmd` a `RadiodanCommand`: a
text that is not one JSON value is a syntax error and leaves `cmd` alone; an
object is stored field by field; `null` changes nothing; any other value is a
type error.  The scan budget is the length of the text plus one.  Of an error
only the presence matters to the program; its text here is a summary. -/
def jsonUnmarshal (data : String) (cmd : RadiodanCommand) : RadiodanCommand × GoError :=
  match parseValue (data.length + 1) 0 data.data with
  | none => (cmd, some "json: syntax error")
  | some (v, rest) =>
      match skipSpace rest with
      | _ :: _ => (cmd, some "json: invalid character after top-level value")
      | [] =>
          match v with
          | JSON.object ms => storeMembers ms cmd none
          | JSON.null => (cmd, none)
          | other =>
              (cmd, some ("json: cannot unmarshal " ++ other.kind ++
                " into Go value of type main.RadiodanCommand"))

/-! ## What the specification observes -/

/-- The `Publish` calls of a trace, in order. -/
def publishEvents (t : List Event) : List Event := t.filter Event.isPublish

/-- The OS-command invocations of a trace, in order. -/
def runEvents (t : List Event) : List Event := t.filter Event.isRun

/-- The waits of a trace, in order. -/
def sleepEvents (t : List Event) : List Event := t.filter Event.isSleep

/-- The Reply of the specification: persistent, plain text, stamped with the
clock reading taken at trace `t`, with the body
`{"error": <true|false>, "correlationId": "<id>"}` around the unchanged id. -/
def replyOf (env : Env) (t : List Event) (correlationId : String) (parseError : Bool) :
    Publishing :=
  Publishing.mk 2 (env.Now (clockReads t)) "text/plain"
    ("\x7b\"error\": " ++ (if parseError then "true" else "false")
      ++ ", \"correlationId\": \"" ++ correlationId ++ "\"\x7d")

/-- The flag the specification assigns to an action: restart or power off. -/
def flagOf (action : String) : String := if action = "restart" then "-r" else "-h"

/-- The process the specification expects for a flag, dry or live. -/
def spawnOf (dry : Bool) (flag : String) : Event :=
  if dry then Event.run "/bin/echo" ["/bin/echo", "shutdown", flag, "now"]
  else Event.run "/sbin/shutdown" ["/sbin/shutdown", flag, "now"]

/-- What one failed connection attempt leaves in the trace. -/
def failedAttempt (uri err : String) : List Event :=
  [Event.dial uri, Event.printf "[!] Cannot connect" [err],
    Event.printf "[*] Retry in 3 seconds" [], Event.sleep 3]

/-- The trace of `n` failed attempts, the first of which is dial number `base`. -/
def failedAttempts (env : Env) (uri : String) (base : Nat) : Nat → List Event
  | 0 => []
  | n + 1 =>
      failedAttempt uri ((env.Dial base).getD "") ++ failedAttempts env uri (base + 1) n

/-- A publish whose body is a Reply with `error` true. -/
def IsErrorReply (e : Event) : Prop :=
  ∃ ch exchange key mandatory immediate msg correlationId,
    e = Event.publish ch exchange key mandatory immediate msg ∧
      msg.Body = response true correlationId

/-- Every run of `m` only appends events to the trace, each of which satisfies `P`. -/
def Emits {α : Type} (P : Event → Prop) (m : Go α) : Prop :=
  ∀ t, ∃ new, (m t).2 = t ++ new ∧ ∀ e ∈ new, P e

/-! ## Concrete environments and deliveries -/

/-- A live environment in which every outside call succeeds. -/
def liveEnv : Env where
  dryRun := false
  Unmarshal := jsonUnmarshal
  Dial := fun _ => none
  Channel := fun _ => none
  ExchangeDeclare := none
  QueueDeclare := ("amq.gen-1", none)
  QueueBind := none
  Consume := ([], none)
  Now := fun n => 1700000000 + n
  Publish := fun _ => none
  CombinedOutput := fun _ => ("", none)

/-- The environment `liveEnv` in dry-run mode, where `echo` prints its arguments. -/
def dryEnv : Env where
  dryRun := true
  Unmarshal := jsonUnmarshal
  Dial := fun _ => none
  Channel := fun _ => none
  ExchangeDeclare := none
  QueueDeclare := ("amq.gen-1", none)
  QueueBind := none
  Consume := ([], none)
  Now := fun n => 1700000000 + n
  Publish := fun _ => none
  CombinedOutput := fun _ => ("shutdown -h now\n", none)

/-- The environment `liveEnv` with a shutdown facility that always fails. -/
def brokenShutdownEnv : Env where
  dryRun := false
  Unmarshal := jsonUnmarshal
  Dial := fun _ => none
  Channel := fun _ => none
  ExchangeDeclare := none
  QueueDeclare := ("amq.gen-1", none)
  QueueBind := none
  Consume := ([], none)
  Now := fun n => 1700000000 + n
  Publish := fun _ => none
  CombinedOutput := fun _ => ("shutdown: Need to be root\n", some "exit status 1")

/-- The environment `liveEnv` with a broker that refuses the first two dials. -/
def lateBrokerEnv : Env where
  dryRun := false
  Unmarshal := jsonUnmarshal
  Dial := fun n => if n < 2 then some "dial tcp: connection refused" else none
  Channel := fun _ => none
  ExchangeDeclare := none
  QueueDeclare := ("amq.gen-1", none)
  QueueBind := none
  Consume := ([], none)
  Now := fun n => 1700000000 + n
  Publish := fun _ => none
  CombinedOutput := fun _ => ("", none)

/-- The environment `liveEnv` with a broker that refuses every publish. -/
def refusingBrokerEnv : Env where
  dryRun := false
  Unmarshal := jsonUnmarshal
  Dial := fun _ => none
  Channel := fun _ => none
  ExchangeDeclare := none
  QueueDeclare := ("amq.gen-1", none)
  QueueBind := none
  Consume := ([], none)
  Now := fun n => 1700000000 + n
  Publish := fun _ => some "channel/connection is not open"
  CombinedOutput := fun _ => ("", none)

/-- Delivery with the body `{"Action":"shutdown","CorrelationId":"abc-1"}`. -/
def shutdownDelivery : Delivery :=
  Delivery.mk "\x7b\"Action\":\"shutdown\",\"CorrelationId\":\"abc-1\"\x7d" "reply.q"

/-- Delivery with the body `{"Action":"restart","CorrelationId":"abc-3"}`. -/
def restartDelivery : Delivery :=
  Delivery.mk "\x7b\"Action\":\"restart\",\"CorrelationId\":\"abc-3\"\x7d" "reply.q"

/-- Delivery with the body `{"Action":"nope","CorrelationId":"abc-2"}`. -/
def nopeDelivery : Delivery :=
  Delivery.mk "\x7b\"Action\":\"nope\",\"CorrelationId\":\"abc-2\"\x7d" "reply.q"

/-- Delivery with the body `not-json`. -/
def malformedDelivery : Delivery := Delivery.mk "not-json" "reply.q"

/-! ## Stepping lemmas -/

theorem bind_run {α β : Type} (m : Go α) (f : α → Go β) (t : List Event) :
    (m >>= f) t = Go.bind m f t := rfl

theorem pure_run {α : Type} (a : α) (t : List Event) :
    (pure a : Go α) t = (Outcome.ret a, t) := rfl

theorem failOnError_none (msg : String) (t : List Event) :
    failOnError none msg t = (Outcome.ret (), t) := rfl

theorem failOnError_some (e msg : String) (t : List Event) :
    failOnError (some e) msg t
      = (Outcome.exit 1, t ++ [Event.printf "%s: %s" [msg, e]]) := rfl

theorem processMessage_ok (env : Env) (m : Delivery) (cmd : RadiodanCommand) (t : List Event)
    (h : env.Unmarshal m.Body (RadiodanCommand.mk "" "") = (cmd, none)) :
    processMessage env m t
      = (Outcome.ret (cmd, none),
          t ++ [Event.printf "[x] Received action: %s" [cmd.Action]]) := by
  simp [processMessage, deferRecover, bind_run, Go.bind, h, failOnError_none, logPrintf, emit,
    pure_run]

theorem processMessage_err (env : Env) (m : Delivery) (cmd : RadiodanCommand) (e : String)
    (t : List Event)
    (h : env.Unmarshal m.Body (RadiodanCommand.mk "" "") = (cmd, some e)) :
    processMessage env m t
      = (Outcome.exit 1,
          t ++ [Event.printf "%s: %s" ["[!] Malformed Radiodan Command", e]]) := by
  simp [processMessage, deferRecover, bind_run, Go.bind, h, failOnError_some]

theorem publishCalls_snoc_now (t : List Event) :
    publishCalls (t ++ [Event.now]) = publishCalls t := by
  simp [publishCalls, List.countP_append, List.countP_cons, Event.isPublish]

theorem replyToMessage_ok (env : Env) (ch : Nat) (m : Delivery) (cmd : RadiodanCommand)
    (b : Bool) (t : List Event) (h : env.Publish (publishCalls t) = none) :
    replyToMessage env ch m cmd b t
      = (Outcome.ret (), t ++ [Event.now,
          Event.publish ch "" m.ReplyTo false false (replyOf env t cmd.CorrelationId b),
          Event.println ["[*] Replying to message",
            (replyOf env t cmd.CorrelationId b).Body]]) := by
  simp [replyToMessage, bind_run, Go.bind, history, emit, publishCalls_snoc_now, h,
    failOnError_none, logPrintln, replyOf, response, fmtBool, Persistent]

theorem replyToMessage_err (env : Env) (ch : Nat) (m : Delivery) (cmd : RadiodanCommand)
    (b : Bool) (t : List Event) (e : String) (h : env.Publish (publishCalls t) = some e) :
    replyToMessage env ch m cmd b t
      = (Outcome.exit 1, t ++ [Event.now,
          Event.publish ch "" m.ReplyTo false false (replyOf env t cmd.CorrelationId b),
          Event.printf "%s: %s" ["[!] Could not reply to message", e]]) := by
  simp [replyToMessage, bind_run, Go.bind, history, emit, publishCalls_snoc_now, h,
    failOnError_some, replyOf, response, fmtBool, Persistent]

theorem execCmd_ok (env : Env) (cmd : RadiodanCommand) (t : List Event) (out : String)
    (hact : cmd.Action = "restart" ∨ cmd.Action = "shutdown")
    (h : env.CombinedOutput (runs t) = (out, none)) :
    execCmd env cmd t
      = (Outcome.ret (), t ++ [spawnOf env.dryRun (flagOf cmd.Action),
          Event.println ["[x] exec:", trimRightNewlines out]]) := by
  rcases hact with ha | ha <;> cases hd : env.dryRun <;>
    simp [execCmd, bind_run, Go.bind, Go.pure, history, emit, ha, hd, h, failOnError_none,
      logPrintln, spawnOf, flagOf]

theorem execCmd_err (env : Env) (cmd : RadiodanCommand) (t : List Event) (out e : String)
    (hact : cmd.Action = "restart" ∨ cmd.Action = "shutdown")
    (h : env.CombinedOutput (runs t) = (out, some e)) :
    execCmd env cmd t
      = (Outcome.exit 1, t ++ [spawnOf env.dryRun (flagOf cmd.Action),
          Event.printf "%s: %s" ["Could not exec shutdown", e]]) := by
  rcases hact with ha | ha <;> cases hd : env.dryRun <;>
    simp [execCmd, bind_run, Go.bind, Go.pure, history, emit, ha, hd, h, failOnError_some,
      spawnOf, flagOf]

theorem execCmd_reject (env : Env) (cmd : RadiodanCommand) (t : List Event)
    (h1 : cmd.Action ≠ "restart") (h2 : cmd.Action ≠ "shutdown") :
    execCmd env cmd t
      = (Outcome.panic ("Action " ++ cmd.Action ++ " is neither restart nor shutdown"), t) := by
  simp [execCmd, bind_run, Go.bind, goPanic, h1, h2]

/-- After a successful parse, handling a delivery is the reply followed by the
execution, run on the trace that holds the receipt log line. -/
theorem handleDelivery_parsed (env : Env) (ch : Nat) (m : Delivery) (cmd : RadiodanCommand)
    (t : List Event)
    (h : env.Unmarshal m.Body (RadiodanCommand.mk "" "") = (cmd, none)) :
    handleDelivery env ch m t
      = Go.bind (replyToMessage env ch m cmd false) (fun _ => execCmd env cmd)
          (t ++ [Event.printf "[x] Received action: %s" [cmd.Action]]) := by
  simp [handleDelivery, bind_run, Go.bind, processMessage_ok env m cmd t h]

/-- A body that `Unmarshal` rejects: the handling logs the error and ends the
process with status 1; nothing is published and nothing is spawned. -/
theorem handleDelivery_malformed (env : Env) (ch : Nat) (m : Delivery) (cmd : RadiodanCommand)
    (e : String) (t : List Event)
    (h : env.Unmarshal m.Body (RadiodanCommand.mk "" "") = (cmd, some e)) :
    handleDelivery env ch m t
      = (Outcome.exit 1,
          t ++ [Event.printf "%s: %s" ["[!] Malformed Radiodan Command", e]]) := by
  simp [handleDelivery, bind_run, Go.bind, processMessage_err env m cmd e t h]

theorem clockReads_snoc_printf (t : List Event) (f : String) (args : List String) :
    clockReads (t ++ [Event.printf f args]) = clockReads t := by
  simp [clockReads, List.countP_append, List.countP_cons, Event.isNow]

theorem publishCalls_snoc_printf (t : List Event) (f : String) (args : List String) :
    publishCalls (t ++ [Event.printf f args]) = publishCalls t := by
  simp [publishCalls, List.countP_append, List.countP_cons, Event.isPublish]

theorem replyOf_snoc_printf (env : Env) (t : List Event) (f : String) (args : List String)
    (cid : String) (b : Bool) :
    replyOf env (t ++ [Event.printf f args]) cid b = replyOf env t cid b := by
  simp [replyOf, clockReads_snoc_printf]

/-! ## Trace extension -/

theorem emits_const {α : Type} (P : Event → Prop) (o : Outcome α) :
    Emits P (fun t => (o, t)) := fun t => ⟨[], by simp, by simp⟩

theorem emits_pure {α : Type} (P : Event → Prop) (a : α) : Emits P (Go.pure a) :=
  emits_const P (Outcome.ret a)

theorem emits_history (P : Event → Prop) : Emits P history :=
  fun t => ⟨[], by simp [history], by simp⟩

theorem emits_emit {P : Event → Prop} {e : Event} (h : P e) : Emits P (emit e) :=
  fun t => ⟨[e], by simp [emit], by simpa using h⟩

theorem emits_bind_ret {α β : Type} {P : Event → Prop} {m : Go α} {f : α → Go β}
    (hm : Emits P m) (hf : ∀ a t t1, m t = (Outcome.ret a, t1) → Emits P (f a)) :
    Emits P (m >>= f) := by
  intro t
  obtain ⟨n1, h1, hp1⟩ := hm t
  rcases hmt : m t with ⟨o, t1⟩
  rw [hmt] at h1
  simp only at h1
  cases o with
  | ret a =>
      obtain ⟨n2, h2, hp2⟩ := hf a t t1 hmt t1
      refine ⟨n1 ++ n2, ?_, ?_⟩
      · subst h1
        simp [bind_run, Go.bind, hmt, h2]
      · intro e he
        rcases List.mem_append.mp he with h | h
        · exact hp1 e h
        · exact hp2 e h
  | panic v => exact ⟨n1, by simp [bind_run, Go.bind, hmt, h1], hp1⟩
  | exit c => exact ⟨n1, by simp [bind_run, Go.bind, hmt, h1], hp1⟩
  | outOfFuel => exact ⟨n1, by simp [bind_run, Go.bind, hmt, h1], hp1⟩

theorem emits_bind {α β : Type} {P : Event → Prop} {m : Go α} {f : α → Go β}
    (hm : Emits P m) (hf : ∀ a, Emits P (f a)) : Emits P (m >>= f) :=
  emits_bind_ret hm (fun a _ _ _ => hf a)

theorem emits_failOnError {P : Event → Prop} (hP : ∀ f args, P (Event.printf f args))
    (err : GoError) (msg : String) : Emits P (failOnError err msg) := by
  intro t
  cases err with
  | none => exact ⟨[], by simp [failOnError_none], by simp⟩
  | some e => exact ⟨[Event.printf "%s: %s" [msg, e]], by simp [failOnError_some],
      by simpa using hP _ _⟩

theorem emits_processMessage {P : Event → Prop} (hP : ∀ e, e.isPublish = false → P e)
    (env : Env) (m : Delivery) : Emits P (processMessage env m) := by
  intro t
  rcases h : env.Unmarshal m.Body (RadiodanCommand.mk "" "") with ⟨cmd, err⟩
  cases err with
  | none =>
      exact ⟨_, by rw [processMessage_ok env m cmd t h], by
        intro e he
        simp at he
        subst he
        exact hP _ rfl⟩
  | some e =>
      exact ⟨_, by rw [processMessage_err env m cmd e t h], by
        intro e he
        simp at he
        subst he
        exact hP _ rfl⟩

theorem emits_replyToMessage {P : Event → Prop} (hP : ∀ e, e.isPublish = false → P e)
    (env : Env) (ch : Nat) (m : Delivery) (cmd : RadiodanCommand) (b : Bool)
    (hpub : ∀ t, P (Event.publish ch "" m.ReplyTo false false
      (replyOf env t cmd.CorrelationId b))) :
    Emits P (replyToMessage env ch m cmd b) := by
  intro t
  cases h : env.Publish (publishCalls t) with
  | none =>
      refine ⟨_, by rw [replyToMessage_ok env ch m cmd b t h], ?_⟩
      intro e he
      simp at he
      rcases he with he | he | he <;> subst he
      · exact hP _ rfl
      · exact hpub t
      · exact hP _ rfl
  | some e =>
      refine ⟨_, by rw [replyToMessage_err env ch m cmd b t e h], ?_⟩
      intro e he
      simp at he
      rcases he with he | he | he <;> subst he
      · exact hP _ rfl
      · exact hpub t
      · exact hP _ rfl

theorem spawnOf_isPublish (dry : Bool) (flag : String) :
    (spawnOf dry flag).isPublish = false := by
  cases dry <;> rfl

theorem emits_execCmd {P : Event → Prop} (hP : ∀ e, e.isPublish = false → P e)
    (env : Env) (cmd : RadiodanCommand) : Emits P (execCmd env cmd) := by
  intro t
  by_cases hact : cmd.Action = "restart" ∨ cmd.Action = "shutdown"
  · rcases h : env.CombinedOutput (runs t) with ⟨out, err⟩
    cases err with
    | none =>
        refine ⟨_, by rw [execCmd_ok env cmd t out hact h], ?_⟩
        intro e he
        simp at he
        rcases he with he | he <;> subst he
        · exact hP _ (spawnOf_isPublish _ _)
        · exact hP _ rfl
    | some e =>
        refine ⟨_, by rw [execCmd_err env cmd t out e hact h], ?_⟩
        intro e he
        simp at he
        rcases he with he | he <;> subst he
        · exact hP _ (spawnOf_isPublish _ _)
        · exact hP _ rfl
  · have h1 : cmd.Action ≠ "restart" := fun h => hact (Or.inl h)
    have h2 : cmd.Action ≠ "shutdown" := fun h => hact (Or.inr h)
    exact ⟨[], by rw [execCmd_reject env cmd t h1 h2]; simp, by simp⟩

theorem processMessage_ret (env : Env) (m : Delivery) (t t1 : List Event)
    (cmd : RadiodanCommand) (err : GoError)
    (h : processMessage env m t = (Outcome.ret (cmd, err), t1)) : err = none := by
  rcases hu : env.Unmarshal m.Body (RadiodanCommand.mk "" "") with ⟨c, e⟩
  cases e with
  | none =>
      rw [processMessage_ok env m c t hu] at h
      simp at h
      exact h.1.2.symm
  | some e =>
      rw [processMessage_err env m c e t hu] at h
      simp at h

theorem emits_handleDelivery {P : Event → Prop} (hP : ∀ e, e.isPublish = false → P e)
    (env : Env) (ch : Nat) (m : Delivery)
    (hpub : ∀ t cid, P (Event.publish ch "" m.ReplyTo false false (replyOf env t cid false))) :
    Emits P (handleDelivery env ch m) := by
  unfold handleDelivery
  refine emits_bind_ret (emits_processMessage hP env m) ?_
  rintro ⟨cmd, err⟩ t t1 h
  have herr := processMessage_ret env m t t1 cmd err h
  subst herr
  simp only [if_true]
  exact emits_bind (emits_replyToMessage hP env ch m cmd false (fun t => hpub t _))
    (fun _ => emits_execCmd hP env cmd)

theorem emits_consumeLoop {P : Event → Prop} (hP : ∀ e, e.isPublish = false → P e)
    (env : Env) (ch : Nat)
    (hpub : ∀ t cid key, P (Event.publish ch "" key false false (replyOf env t cid false)))
    (msgs : List Delivery) : Emits P (consumeLoop env ch msgs) := by
  induction msgs with
  | nil => exact emits_pure P ()
  | cons m ms ih =>
      unfold consumeLoop
      exact emits_bind (emits_handleDelivery hP env ch m (fun t cid => hpub t cid _))
        (fun _ => ih)

theorem emits_consumer {P : Event → Prop} (hP : ∀ e, e.isPublish = false → P e)
    (env : Env) (ch : Nat)
    (hpub : ∀ t cid key, P (Event.publish ch "" key false false (replyOf env t cid false)))
    (msgs : List Delivery) : Emits P (consumer env ch msgs) := by
  intro t
  obtain ⟨new, h1, h2⟩ := emits_consumeLoop hP env ch hpub msgs t
  rcases hc : consumeLoop env ch msgs t with ⟨o, t1⟩
  rw [hc] at h1
  simp only at h1
  subst h1
  cases o with
  | panic v =>
      refine ⟨new ++ [Event.crash v], by simp [consumer, hc], ?_⟩
      intro e he
      rcases List.mem_append.mp he with h | h
      · exact h2 e h
      · simp at h
        subst h
        exact hP _ rfl
  | ret a => exact ⟨new, by simp [consumer, hc], h2⟩
  | exit c => exact ⟨new, by simp [consumer, hc], h2⟩
  | outOfFuel => exact ⟨new, by simp [consumer, hc], h2⟩

theorem emits_connectLoop {P : Event → Prop} (hP : ∀ e, e.isPublish = false → P e)
    (env : Env) (uri : String) (fuel : Nat) :
    ∀ connected conn, Emits P (connectLoop env uri fuel connected conn) := by
  induction fuel with
  | zero =>
      intro connected conn
      cases connected
      · exact emits_const P Outcome.outOfFuel
      · exact emits_pure P conn
  | succ n ih =>
      intro connected conn
      cases connected
      · unfold connectLoop
        simp only [bne_iff_ne, ne_eq, Bool.false_eq_true, not_false_eq_true, if_true]
        refine emits_bind (emits_history P) (fun before => ?_)
        refine emits_bind (emits_emit (hP _ rfl)) (fun _ => ?_)
        cases env.Dial (dials before) with
        | none =>
            exact emits_bind (emits_emit (hP _ rfl)) (fun _ => ih _ _)
        | some err =>
            refine emits_bind (emits_emit (hP _ rfl)) (fun _ => ?_)
            refine emits_bind (emits_emit (hP _ rfl)) (fun _ => ?_)
            exact emits_bind (emits_emit (hP _ rfl)) (fun _ => ih _ _)
      · exact emits_pure P conn

theorem emits_openChannel {P : Event → Prop} (hP : ∀ e, e.isPublish = false → P e)
    (env : Env) (conn : Option Nat) : Emits P (openChannel env conn) := by
  cases conn with
  | none => exact emits_const P _
  | some c =>
      unfold openChannel
      refine emits_bind (emits_history P) (fun before => ?_)
      exact emits_bind (emits_emit (hP _ rfl)) (fun _ => emits_pure P _)

theorem emits_setupAndConsume {P : Event → Prop} (hP : ∀ e, e.isPublish = false → P e)
    (env : Env) (conn : Option Nat)
    (hpub : ∀ ch t cid key,
      P (Event.publish ch "" key false false (replyOf env t cid false))) :
    Emits P (setupAndConsume env conn) := by
  unfold setupAndConsume
  refine emits_bind (emits_openChannel hP env conn) (fun c1 => ?_)
  refine emits_bind (emits_failOnError (fun _ _ => hP _ rfl) _ _) (fun _ => ?_)
  refine emits_bind (emits_openChannel hP env conn) (fun c2 => ?_)
  refine emits_bind (emits_failOnError (fun _ _ => hP _ rfl) _ _) (fun _ => ?_)
  refine emits_bind (emits_emit (hP _ rfl)) (fun _ => ?_)
  refine emits_bind (emits_failOnError (fun _ _ => hP _ rfl) _ _) (fun _ => ?_)
  refine emits_bind (emits_emit (hP _ rfl)) (fun _ => ?_)
  refine emits_bind (emits_failOnError (fun _ _ => hP _ rfl) _ _) (fun _ => ?_)
  refine emits_bind (emits_emit (hP _ rfl)) (fun _ => ?_)
  refine emits_bind (emits_failOnError (fun _ _ => hP _ rfl) _ _) (fun _ => ?_)
  refine emits_bind (emits_emit (hP _ rfl)) (fun _ => ?_)
  refine emits_bind (emits_failOnError (fun _ _ => hP _ rfl) _ _) (fun _ => ?_)
  refine emits_bind (emits_emit (hP _ rfl)) (fun _ => ?_)
  refine emits_bind (emits_emit (hP _ rfl)) (fun _ => ?_)
  exact emits_consumer hP env _ (fun t cid key => hpub _ t cid key) _

theorem emits_listenForCommand {P : Event → Prop} (hP : ∀ e, e.isPublish = false → P e)
    (env : Env) (host : String) (port : Int) (fuel : Nat)
    (hpub : ∀ ch t cid key,
      P (Event.publish ch "" key false false (replyOf env t cid false))) :
    Emits P (listenForCommand env host port fuel) := by
  unfold listenForCommand
  exact emits_bind (emits_connectLoop hP env _ fuel _ _)
    (fun conn => emits_setupAndConsume hP env conn hpub)

theorem connectLoop_connected (env : Env) (uri : String) (fuel : Nat) (conn : Option Nat)
    (t : List Event) : connectLoop env uri fuel true conn t = (Outcome.ret conn, t) := by
  cases fuel <;> simp [connectLoop, Go.pure]

theorem dials_failedAttempt (t : List Event) (uri err : String) :
    dials (t ++ failedAttempt uri err) = dials t + 1 := by
  simp [dials, failedAttempt, List.countP_append, List.countP_cons, Event.isDial]

theorem connectLoop_retries (env : Env) (uri : String) :
    ∀ (N fuel : Nat) (t : List Event) (conn : Option Nat),
      (∀ k, k < N → env.Dial (dials t + k) ≠ none) → env.Dial (dials t + N) = none →
      N + 1 ≤ fuel →
      connectLoop env uri fuel false conn t
        = (Outcome.ret (some (dials t + N)),
            t ++ failedAttempts env uri (dials t) N
              ++ [Event.dial uri, Event.printf "[*] Connected to %s" [uri]]) := by
  intro N
  induction N with
  | zero =>
      intro fuel t conn _ hok hfuel
      obtain ⟨f, rfl⟩ : ∃ f, fuel = f + 1 := ⟨fuel - 1, by omega⟩
      simp only [Nat.add_zero] at hok
      simp [connectLoop, bind_run, Go.bind, history, emit, hok, logPrintf,
        connectLoop_connected, failedAttempts]
  | succ n ih =>
      intro fuel t conn hfail hok hfuel
      obtain ⟨f, rfl⟩ : ∃ f, fuel = f + 1 := ⟨fuel - 1, by omega⟩
      have h0 := hfail 0 (by omega)
      simp only [Nat.add_zero] at h0
      obtain ⟨err, herr⟩ : ∃ err, env.Dial (dials t) = some err := by
        cases h : env.Dial (dials t) with
        | none => exact absurd h h0
        | some err => exact ⟨err, rfl⟩
      have hd := dials_failedAttempt t uri err
      have step := ih f (t ++ failedAttempt uri err) conn
        (fun k hk => by
          rw [hd, Nat.add_assoc, Nat.add_comm 1 k]
          exact hfail (k + 1) (by omega))
        (by rw [hd, Nat.add_assoc, Nat.add_comm 1 n]; exact hok)
        (by omega)
      rw [hd] at step
      simp only [failedAttempt, List.append_assoc, List.cons_append, List.nil_append] at step
      simp [connectLoop, bind_run, Go.bind, history, emit, herr, logPrintf, failedAttempts,
        failedAttempt, step, Nat.add_assoc, Nat.add_comm 1 n]

/-! ## Handling one delivery, case by case -/

theorem handleDelivery_publish_err (env : Env) (ch : Nat) (m : Delivery)
    (cmd : RadiodanCommand) (t : List Event) (e : String)
    (hparse : env.Unmarshal m.Body (RadiodanCommand.mk "" "") = (cmd, none))
    (hpub : env.Publish (publishCalls t) = some e) :
    handleDelivery env ch m t
      = (Outcome.exit 1, t ++ [Event.printf "[x] Received action: %s" [cmd.Action], Event.now,
          Event.publish ch "" m.ReplyTo false false (replyOf env t cmd.CorrelationId false),
          Event.printf "%s: %s" ["[!] Could not reply to message", e]]) := by
  rw [handleDelivery_parsed env ch m cmd t hparse]
  have h := replyToMessage_err env ch m cmd false
    (t ++ [Event.printf "[x] Received action: %s" [cmd.Action]]) e
    (by rw [publishCalls_snoc_printf]; exact hpub)
  simp [Go.bind, h, replyOf_snoc_printf]

theorem handleDelivery_replied (env : Env) (ch : Nat) (m : Delivery)
    (cmd : RadiodanCommand) (t : List Event)
    (hparse : env.Unmarshal m.Body (RadiodanCommand.mk "" "") = (cmd, none))
    (hpub : env.Publish (publishCalls t) = none) :
    handleDelivery env ch m t
      = execCmd env cmd (t ++ [Event.printf "[x] Received action: %s" [cmd.Action], Event.now,
          Event.publish ch "" m.ReplyTo false false (replyOf env t cmd.CorrelationId false),
          Event.println ["[*] Replying to message",
            (replyOf env t cmd.CorrelationId false).Body]]) := by
  rw [handleDelivery_parsed env ch m cmd t hparse]
  have h := replyToMessage_ok env ch m cmd false
    (t ++ [Event.printf "[x] Received action: %s" [cmd.Action]])
    (by rw [publishCalls_snoc_printf]; exact hpub)
  simp [Go.bind, h, replyOf_snoc_printf]

theorem runs_replied (t : List Event) (f : String) (args largs : List String) (ch : Nat)
    (x k : String) (a b : Bool) (p : Publishing) :
    runs (t ++ [Event.printf f args, Event.now, Event.publish ch x k a b p,
      Event.println largs]) = runs t := by
  simp [runs, List.countP_append, List.countP_cons, Event.isRun]

theorem publishEvents_of_none (t new : List Event) (h : ∀ e ∈ new, e.isPublish = false) :
    publishEvents (t ++ new) = publishEvents t := by
  have : List.filter Event.isPublish new = [] := by
    rw [List.filter_eq_nil_iff]
    intro e he
    simp [h e he]
  simp [publishEvents, this]

theorem publishEvents_execCmd (env : Env) (cmd : RadiodanCommand) (t : List Event) :
    publishEvents (execCmd env cmd t).2 = publishEvents t := by
  obtain ⟨new, h1, h2⟩ := emits_execCmd (fun e h => h) env cmd t
  rw [h1]
  exact publishEvents_of_none t new h2

theorem handleDelivery_publishEvents (env : Env) (ch : Nat) (m : Delivery)
    (cmd : RadiodanCommand) (t : List Event)
    (hparse : env.Unmarshal m.Body (RadiodanCommand.mk "" "") = (cmd, none)) :
    publishEvents (handleDelivery env ch m t).2
      = publishEvents t ++ [Event.publish ch "" m.ReplyTo false false
          (replyOf env t cmd.CorrelationId false)] := by
  cases hpub : env.Publish (publishCalls t) with
  | none =>
      rw [handleDelivery_replied env ch m cmd t hparse hpub, publishEvents_execCmd]
      simp [publishEvents, Event.isPublish]
  | some e =>
      rw [handleDelivery_publish_err env ch m cmd t e hparse hpub]
      simp [publishEvents, Event.isPublish]

theorem handleDelivery_runEvents (env : Env) (ch : Nat) (m : Delivery)
    (cmd : RadiodanCommand) (t : List Event)
    (hparse : env.Unmarshal m.Body (RadiodanCommand.mk "" "") = (cmd, none))
    (hact : cmd.Action = "restart" ∨ cmd.Action = "shutdown")
    (hpub : env.Publish (publishCalls t) = none) :
    runEvents (handleDelivery env ch m t).2
      = runEvents t ++ [spawnOf env.dryRun (flagOf cmd.Action)] := by
  rw [handleDelivery_replied env ch m cmd t hparse hpub]
  rcases hrun : env.CombinedOutput (runs t) with ⟨out, err⟩
  cases err with
  | none =>
      rw [execCmd_ok env cmd _ out hact (by rw [runs_replied]; exact hrun)]
      cases env.dryRun <;> simp [runEvents, Event.isRun, spawnOf]
  | some e =>
      rw [execCmd_err env cmd _ out e hact (by rw [runs_replied]; exact hrun)]
      cases env.dryRun <;> simp [runEvents, Event.isRun, spawnOf]

/-! ## The claims -/

/-- C1 fails as stated: with a broker that refuses the publish, the valid
command `{"Action":"shutdown","CorrelationId":"abc-1"}` is parsed, the Reply is
handed to `Publish`, `failOnError` ends the process with status 1, and no OS
command is invoked. -/
theorem valid_command_refused_reply_no_invocation :
    jsonUnmarshal shutdownDelivery.Body (RadiodanCommand.mk "" "")
        = (RadiodanCommand.mk "shutdown" "abc-1", none)
      ∧ handleDelivery refusingBrokerEnv 1 shutdownDelivery []
        = (Outcome.exit 1,
            [Event.printf "[x] Received action: %s" ["shutdown"], Event.now,
              Event.publish 1 "" "reply.q" false false
                (Publishing.mk 2 1700000000 "text/plain"
                  "\x7b\"error\": false, \"correlationId\": \"abc-1\"\x7d"),
              Event.printf "%s: %s"
                ["[!] Could not reply to message", "channel/connection is not open"]])
      ∧ runEvents (handleDelivery refusingBrokerEnv 1 shutdownDelivery []).2 = [] := by
  decide

/-- C1, amended: handling a delivery whose body deserializes to a Command with
Action "restart" or "shutdown" makes exactly one `Publish` call, of the Reply
with error false and the inbound CorrelationId; and when the broker accepts
that publish (`Publish` returns nil), exactly one OS command is invoked, with
"-r" for restart and "-h" for shutdown. -/
theorem valid_command_one_reply_one_invocation (env : Env) (ch : Nat) (m : Delivery)
    (cmd : RadiodanCommand) (t : List Event)
    (hparse : env.Unmarshal m.Body (RadiodanCommand.mk "" "") = (cmd, none))
    (hact : cmd.Action = "restart" ∨ cmd.Action = "shutdown") :
    publishEvents (handleDelivery env ch m t).2
        = publishEvents t ++ [Event.publish ch "" m.ReplyTo false false
            (replyOf env t cmd.CorrelationId false)]
      ∧ (env.Publish (publishCalls t) = none →
          runEvents (handleDelivery env ch m t).2
            = runEvents t ++ [spawnOf env.dryRun
                (if cmd.Action = "restart" then "-r" else "-h")]) :=
  ⟨handleDelivery_publishEvents env ch m cmd t hparse,
    fun hpub => handleDelivery_runEvents env ch m cmd t hparse hact hpub⟩

/-- C1 amended, at the body `{"Action":"shutdown","CorrelationId":"abc-1"}` with
a broker that accepts the publish: the Reply body is
`{"error": false, "correlationId": "abc-1"}` and the one invocation carries the
power-off flag "-h". -/
theorem valid_command_shutdown_witness :
    jsonUnmarshal shutdownDelivery.Body (RadiodanCommand.mk "" "")
        = (RadiodanCommand.mk "shutdown" "abc-1", none)
      ∧ publishEvents (handleDelivery liveEnv 1 shutdownDelivery []).2
        = [Event.publish 1 "" "reply.q" false false
            (Publishing.mk 2 1700000000 "text/plain"
              "\x7b\"error\": false, \"correlationId\": \"abc-1\"\x7d")]
      ∧ runEvents (handleDelivery liveEnv 1 shutdownDelivery []).2
        = [Event.run "/sbin/shutdown" ["/sbin/shutdown", "-h", "now"]] := by
  have h := valid_command_one_reply_one_invocation liveEnv 1 shutdownDelivery
    (RadiodanCommand.mk "shutdown" "abc-1") [] (by decide) (by decide)
  exact ⟨by decide, h.1, h.2 rfl⟩

/-- C2, at the body `not-json`: `json.Unmarshal` fails, and handling the
delivery logs the error and ends the process with status 1; no Reply is
published (none with error true either) and no OS command is invoked. -/
theorem malformed_body_exits_without_reply :
    jsonUnmarshal malformedDelivery.Body (RadiodanCommand.mk "" "")
        = (RadiodanCommand.mk "" "", some "json: syntax error")
      ∧ handleDelivery liveEnv 1 malformedDelivery []
        = (Outcome.exit 1,
            [Event.printf "%s: %s" ["[!] Malformed Radiodan Command", "json: syntax error"]])
      ∧ publishEvents (handleDelivery liveEnv 1 malformedDelivery []).2 = []
      ∧ runEvents (handleDelivery liveEnv 1 malformedDelivery []).2 = [] := by
  decide

/-- C3, at the deliveries `not-json` then a valid shutdown command: the
malformed body ends the process with status 1 and the later delivery is never
handled, while the same later delivery alone is replied to and executed. -/
theorem malformed_body_ends_consumer :
    consumer liveEnv 1 [malformedDelivery, shutdownDelivery] []
        = (Outcome.exit 1,
            [Event.printf "%s: %s" ["[!] Malformed Radiodan Command", "json: syntax error"]])
      ∧ consumer liveEnv 1 [shutdownDelivery] []
        = (Outcome.ret (),
            [Event.printf "[x] Received action: %s" ["shutdown"], Event.now,
              Event.publish 1 "" "reply.q" false false
                (Publishing.mk 2 1700000000 "text/plain"
                  "\x7b\"error\": false, \"correlationId\": \"abc-1\"\x7d"),
              Event.println ["[*] Replying to message",
                "\x7b\"error\": false, \"correlationId\": \"abc-1\"\x7d"],
              Event.run "/sbin/shutdown" ["/sbin/shutdown", "-h", "now"],
              Event.println ["[x] exec:", ""]]) := by
  decide

/-- C4 fails as stated: after the body `{"Action":"nope","CorrelationId":"abc-2"}`
the process has ended with status 2, and the valid shutdown command delivered
next gets no Reply and no execution. -/
theorem rejected_action_ends_process_example :
    consumer liveEnv 1 [nopeDelivery, shutdownDelivery] []
        = (Outcome.exit 2,
            [Event.printf "[x] Received action: %s" ["nope"], Event.now,
              Event.publish 1 "" "reply.q" false false
                (Publishing.mk 2 1700000000 "text/plain"
                  "\x7b\"error\": false, \"correlationId\": \"abc-2\"\x7d"),
              Event.println ["[*] Replying to message",
                "\x7b\"error\": false, \"correlationId\": \"abc-2\"\x7d"],
              Event.crash "Action nope is neither restart nor shutdown"])
      ∧ (consumer liveEnv 1 [nopeDelivery, shutdownDelivery] []).1 ≠ Outcome.ret () := by
  decide

theorem consumeLoop_append (env : Env) (ch : Nat) (pre post : List Delivery) (t t1 : List Event)
    (h : consumeLoop env ch pre t = (Outcome.ret (), t1)) :
    consumeLoop env ch (pre ++ post) t = consumeLoop env ch post t1 := by
  induction pre generalizing t with
  | nil =>
      simp only [consumeLoop, Go.pure, Prod.mk.injEq, true_and] at h
      subst h
      rfl
  | cons m ms ih =>
      rcases hm : handleDelivery env ch m t with ⟨o, t2⟩
      cases o with
      | ret u =>
          simp only [consumeLoop, bind_run, Go.bind, hm] at h
          simp only [List.cons_append, consumeLoop, bind_run, Go.bind, hm]
          exact ih t2 h
      | panic v => simp [consumeLoop, bind_run, Go.bind, hm] at h
      | exit c => simp [consumeLoop, bind_run, Go.bind, hm] at h
      | outOfFuel => simp [consumeLoop, bind_run, Go.bind, hm] at h

/-- In every sequence of deliveries, the first body that `Unmarshal` rejects
ends the process with status 1; the deliveries after it leave no event. -/
theorem consumer_stops_at_malformed (env : Env) (ch : Nat) (pre post : List Delivery)
    (bad : Delivery) (cmd : RadiodanCommand) (e : String) (t t1 : List Event)
    (hpre : consumeLoop env ch pre t = (Outcome.ret (), t1))
    (hbad : env.Unmarshal bad.Body (RadiodanCommand.mk "" "") = (cmd, some e)) :
    consumer env ch (pre ++ bad :: post) t
      = (Outcome.exit 1,
          t1 ++ [Event.printf "%s: %s" ["[!] Malformed Radiodan Command", e]]) := by
  have h := consumeLoop_append env ch pre (bad :: post) t t1 hpre
  simp [consumer, h, consumeLoop, bind_run, Go.bind,
    handleDelivery_malformed env ch bad cmd e t1 hbad]

theorem consumer_cons_of_exit (env : Env) (ch : Nat) (m : Delivery) (ms : List Delivery)
    (t t1 : List Event) (code : Nat) (h : handleDelivery env ch m t = (Outcome.exit code, t1)) :
    consumer env ch (m :: ms) t = (Outcome.exit code, t1) := by
  simp [consumer, consumeLoop, bind_run, Go.bind, h]

theorem consumer_cons_of_panic (env : Env) (ch : Nat) (m : Delivery) (ms : List Delivery)
    (t t1 : List Event) (v : String) (h : handleDelivery env ch m t = (Outcome.panic v, t1)) :
    consumer env ch (m :: ms) t = (Outcome.exit 2, t1 ++ [Event.crash v]) := by
  simp [consumer, consumeLoop, bind_run, Go.bind, h]

/-- C4, amended: for a delivery whose body deserializes to a Command whose
Action is neither "restart" nor "shutdown", when the broker accepts the
publish, the Reply with error false and the inbound CorrelationId is
published, no OS command is invoked, `execCmd` panics, and the panic, which
nothing recovers, ends the process with status 2: no later delivery is
handled. -/
theorem rejected_action_replies_then_ends_process (env : Env) (ch : Nat) (m : Delivery)
    (ms : List Delivery) (cmd : RadiodanCommand) (t : List Event)
    (hparse : env.Unmarshal m.Body (RadiodanCommand.mk "" "") = (cmd, none))
    (hrestart : cmd.Action ≠ "restart") (hshutdown : cmd.Action ≠ "shutdown")
    (hpub : env.Publish (publishCalls t) = none) :
    consumer env ch (m :: ms) t
      = (Outcome.exit 2,
          t ++ [Event.printf "[x] Received action: %s" [cmd.Action], Event.now,
            Event.publish ch "" m.ReplyTo false false (replyOf env t cmd.CorrelationId false),
            Event.println ["[*] Replying to message",
              (replyOf env t cmd.CorrelationId false).Body],
            Event.crash ("Action " ++ cmd.Action ++ " is neither restart nor shutdown")]) := by
  have h := handleDelivery_replied env ch m cmd t hparse hpub
  rw [execCmd_reject env cmd _ hrestart hshutdown] at h
  rw [consumer_cons_of_panic env ch m ms t _ _ h]
  simp

/-- C4 amended, in dry-run mode, at the body `{"Action":"nope","CorrelationId":"abc-2"}`
followed by a restart command. -/
theorem rejected_action_witness :
    consumer dryEnv 7 [nopeDelivery, restartDelivery] []
      = (Outcome.exit 2,
          [Event.printf "[x] Received action: %s" ["nope"], Event.now,
            Event.publish 7 "" "reply.q" false false
              (Publishing.mk 2 1700000000 "text/plain"
                "\x7b\"error\": false, \"correlationId\": \"abc-2\"\x7d"),
            Event.println ["[*] Replying to message",
              "\x7b\"error\": false, \"correlationId\": \"abc-2\"\x7d"],
            Event.crash "Action nope is neither restart nor shutdown"]) :=
  rejected_action_replies_then_ends_process dryEnv 7 nopeDelivery [restartDelivery]
    (RadiodanCommand.mk "nope" "abc-2") [] (by decide) (by decide) (by decide) (by decide)

/-- C5: for every error flag and every CorrelationId, `replyToMessage` makes
one `Publish` call, on the default exchange "", with the inbound ReplyTo as
routing key, persistent, of content type "text/plain", whose body is the text
`{"error": <true|false>, "correlationId": "<id>"}` with the characters of the
id in place, unchanged. -/
theorem reply_is_published_verbatim (env : Env) (ch : Nat) (msg : Delivery)
    (cmd : RadiodanCommand) (parseError : Bool) (t : List Event) :
    publishEvents (replyToMessage env ch msg cmd parseError t).2
        = publishEvents t ++ [Event.publish ch "" msg.ReplyTo false false
            (Publishing.mk Persistent (env.Now (clockReads t)) "text/plain"
              ("\x7b\"error\": " ++ (if parseError then "true" else "false")
                ++ ", \"correlationId\": \"" ++ cmd.CorrelationId ++ "\"\x7d"))]
      ∧ (response parseError cmd.CorrelationId).data
        = ['\x7b', '"', 'e', 'r', 'r', 'o', 'r', '"', ':', ' ']
            ++ (if parseError then ['t', 'r', 'u', 'e'] else ['f', 'a', 'l', 's', 'e'])
            ++ [',', ' ', '"', 'c', 'o', 'r', 'r', 'e', 'l', 'a', 't', 'i', 'o', 'n', 'I', 'd',
                '"', ':', ' ', '"']
            ++ cmd.CorrelationId.data ++ ['"', '\x7d'] := by
  constructor
  · cases hpub : env.Publish (publishCalls t) with
    | none =>
        rw [replyToMessage_ok env ch msg cmd parseError t hpub]
        simp [publishEvents, Event.isPublish, replyOf, Persistent]
    | some e =>
        rw [replyToMessage_err env ch msg cmd parseError t e hpub]
        simp [publishEvents, Event.isPublish, replyOf, Persistent]
  · cases parseError <;> simp [response, fmtBool, String.data_append]

/-- C5 at an id that holds a quote and a backslash: both reach the body as they are. -/
theorem reply_keeps_quote_and_backslash :
    publishEvents (replyToMessage liveEnv 1 shutdownDelivery
        (RadiodanCommand.mk "shutdown" "a\"b\\c") true []).2
      = [Event.publish 1 "" "reply.q" false false
          (Publishing.mk 2 1700000000 "text/plain"
            "\x7b\"error\": true, \"correlationId\": \"a\"b\\c\"\x7d")] := by
  decide

/-- C6: for a delivery whose body deserializes, once the broker has accepted
the Reply the rest of the handling is `execCmd` run on a trace that already
holds the published Reply; and the `Publish` calls of the handling are that
one Reply, the same for every Action, every dry-run setting, and every answer
of the OS and of the broker. -/
theorem reply_precedes_execution (env : Env) (ch : Nat) (m : Delivery)
    (cmd : RadiodanCommand) (t : List Event)
    (hparse : env.Unmarshal m.Body (RadiodanCommand.mk "" "") = (cmd, none)) :
    (env.Publish (publishCalls t) = none →
        handleDelivery env ch m t
          = execCmd env cmd
              (t ++ [Event.printf "[x] Received action: %s" [cmd.Action], Event.now,
                Event.publish ch "" m.ReplyTo false false
                  (replyOf env t cmd.CorrelationId false),
                Event.println ["[*] Replying to message",
                  (replyOf env t cmd.CorrelationId false).Body]]))
      ∧ publishEvents (handleDelivery env ch m t).2
        = publishEvents t ++ [Event.publish ch "" m.ReplyTo false false
            (replyOf env t cmd.CorrelationId false)]
      ∧ ∀ other : Env, other.Unmarshal = env.Unmarshal → other.Now = env.Now →
          publishEvents (handleDelivery other ch m t).2
            = publishEvents (handleDelivery env ch m t).2 := by
  refine ⟨handleDelivery_replied env ch m cmd t hparse,
    handleDelivery_publishEvents env ch m cmd t hparse, ?_⟩
  intro other hu hn
  rw [handleDelivery_publishEvents env ch m cmd t hparse,
    handleDelivery_publishEvents other ch m cmd t (by rw [hu]; exact hparse)]
  simp [replyOf, hn]

/-- C6 at a restart command, between the live environment and one whose
shutdown facility fails: the same Reply, published before the invocation. -/
theorem reply_precedes_execution_witness :
    handleDelivery brokenShutdownEnv 1 restartDelivery []
        = execCmd brokenShutdownEnv (RadiodanCommand.mk "restart" "abc-3")
            [Event.printf "[x] Received action: %s" ["restart"], Event.now,
              Event.publish 1 "" "reply.q" false false
                (Publishing.mk 2 1700000000 "text/plain"
                  "\x7b\"error\": false, \"correlationId\": \"abc-3\"\x7d"),
              Event.println ["[*] Replying to message",
                "\x7b\"error\": false, \"correlationId\": \"abc-3\"\x7d"]]
      ∧ publishEvents (handleDelivery liveEnv 1 restartDelivery []).2
        = publishEvents (handleDelivery brokenShutdownEnv 1 restartDelivery []).2 := by
  have h := reply_precedes_execution brokenShutdownEnv 1 restartDelivery
    (RadiodanCommand.mk "restart" "abc-3") [] (by decide)
  exact ⟨h.1 rfl, h.2.2 liveEnv rfl rfl⟩

/-- C7: for a Command with Action "restart" or "shutdown", `execCmd` in
dry-run mode spawns path "/bin/echo" with arguments
["/bin/echo", "shutdown", flag, "now"], where live mode spawns "/sbin/shutdown"
with ["/sbin/shutdown", flag, "now"] and the same flag; path and arguments
differ, and no process with path "/sbin/shutdown" is spawned in dry-run mode. -/
theorem dry_run_spawns_echo (env : Env) (cmd : RadiodanCommand) (t : List Event)
    (hact : cmd.Action = "restart" ∨ cmd.Action = "shutdown")
    (hdry : env.dryRun = true) :
    runEvents (execCmd env cmd t).2
        = runEvents t ++ [Event.run "/bin/echo"
            ["/bin/echo", "shutdown", if cmd.Action = "restart" then "-r" else "-h", "now"]]
      ∧ (∀ live : Env, live.dryRun = false →
          runEvents (execCmd live cmd t).2
            = runEvents t ++ [Event.run "/sbin/shutdown"
                ["/sbin/shutdown", if cmd.Action = "restart" then "-r" else "-h", "now"]])
      ∧ "/bin/echo" ≠ "/sbin/shutdown"
      ∧ ["/bin/echo", "shutdown", if cmd.Action = "restart" then "-r" else "-h", "now"]
          ≠ ["/sbin/shutdown", if cmd.Action = "restart" then "-r" else "-h", "now"]
      ∧ ∀ args, Event.run "/sbin/shutdown" args ∈ (execCmd env cmd t).2 →
          Event.run "/sbin/shutdown" args ∈ t := by
  have hrun : ∀ e : Env, ∃ o extra, execCmd e cmd t
      = (o, t ++ [spawnOf e.dryRun (flagOf cmd.Action), extra]) ∧ extra.isRun = false := by
    intro e
    rcases h : e.CombinedOutput (runs t) with ⟨out, err⟩
    cases err with
    | none => exact ⟨_, _, execCmd_ok e cmd t out hact h, rfl⟩
    | some x => exact ⟨_, _, execCmd_err e cmd t out x hact h, rfl⟩
  refine ⟨?_, ?_, by decide, by simp, ?_⟩
  · obtain ⟨o, extra, h, hx⟩ := hrun env
    rw [h]
    simp [runEvents, List.filter_cons, hdry, spawnOf, flagOf, Event.isRun]
    exact hx
  · intro live hlive
    obtain ⟨o, extra, h, hx⟩ := hrun live
    rw [h]
    simp [runEvents, List.filter_cons, hlive, spawnOf, flagOf, Event.isRun]
    exact hx
  · intro args hmem
    obtain ⟨o, extra, h, hx⟩ := hrun env
    rw [h] at hmem
    simp only [hdry, spawnOf, if_true, List.mem_append, List.mem_cons, List.mem_singleton,
      List.not_mem_nil, or_false] at hmem
    rcases hmem with h1 | h1 | h1
    · exact h1
    · simp at h1
    · rw [← h1] at hx
      simp [Event.isRun] at hx

/-- C7 at a shutdown command, dry against live. -/
theorem dry_run_witness :
    runEvents (execCmd dryEnv (RadiodanCommand.mk "shutdown" "abc-1") []).2
        = [Event.run "/bin/echo" ["/bin/echo", "shutdown", "-h", "now"]]
      ∧ runEvents (execCmd liveEnv (RadiodanCommand.mk "shutdown" "abc-1") []).2
        = [Event.run "/sbin/shutdown" ["/sbin/shutdown", "-h", "now"]] := by
  have h := dry_run_spawns_echo dryEnv (RadiodanCommand.mk "shutdown" "abc-1") []
    (by decide) rfl
  exact ⟨h.1, h.2.1 liveEnv rfl⟩

/-- C8 fails as stated: with a shutdown facility that fails, a valid restart
command ends the process with status 1, and the valid shutdown command
delivered next is never handled. -/
theorem failed_command_ends_process_example :
    consumer brokenShutdownEnv 1 [restartDelivery, shutdownDelivery] []
        = (Outcome.exit 1,
            [Event.printf "[x] Received action: %s" ["restart"], Event.now,
              Event.publish 1 "" "reply.q" false false
                (Publishing.mk 2 1700000000 "text/plain"
                  "\x7b\"error\": false, \"correlationId\": \"abc-3\"\x7d"),
              Event.println ["[*] Replying to message",
                "\x7b\"error\": false, \"correlationId\": \"abc-3\"\x7d"],
              Event.run "/sbin/shutdown" ["/sbin/shutdown", "-r", "now"],
              Event.printf "%s: %s" ["Could not exec shutdown", "exit status 1"]])
      ∧ (consumer brokenShutdownEnv 1 [restartDelivery, shutdownDelivery] []).1
          ≠ Outcome.ret () := by
  decide

/-- C8, amended: for a valid Command whose Reply the broker accepted, if the
spawned OS command fails, the failure is logged and `failOnError` ends the
process with status 1: the command was invoked once, is not retried, and no
later delivery is handled. -/
theorem failed_command_logs_and_ends_process (env : Env) (ch : Nat) (m : Delivery)
    (ms : List Delivery) (cmd : RadiodanCommand) (t : List Event) (out e : String)
    (hparse : env.Unmarshal m.Body (RadiodanCommand.mk "" "") = (cmd, none))
    (hact : cmd.Action = "restart" ∨ cmd.Action = "shutdown")
    (hpub : env.Publish (publishCalls t) = none)
    (hrun : env.CombinedOutput (runs t) = (out, some e)) :
    consumer env ch (m :: ms) t
      = (Outcome.exit 1,
          t ++ [Event.printf "[x] Received action: %s" [cmd.Action], Event.now,
            Event.publish ch "" m.ReplyTo false false (replyOf env t cmd.CorrelationId false),
            Event.println ["[*] Replying to message",
              (replyOf env t cmd.CorrelationId false).Body],
            spawnOf env.dryRun (if cmd.Action = "restart" then "-r" else "-h"),
            Event.printf "%s: %s" ["Could not exec shutdown", e]]) := by
  have h := handleDelivery_replied env ch m cmd t hparse hpub
  rw [execCmd_err env cmd _ out e hact (by rw [runs_replied]; exact hrun)] at h
  rw [consumer_cons_of_exit env ch m ms t _ _ h]
  simp [flagOf]

/-- C8 amended, at a shutdown command followed by a restart command. -/
theorem failed_command_witness :
    consumer brokenShutdownEnv 3 [shutdownDelivery, restartDelivery] []
      = (Outcome.exit 1,
          [Event.printf "[x] Received action: %s" ["shutdown"], Event.now,
            Event.publish 3 "" "reply.q" false false
              (Publishing.mk 2 1700000000 "text/plain"
                "\x7b\"error\": false, \"correlationId\": \"abc-1\"\x7d"),
            Event.println ["[*] Replying to message",
              "\x7b\"error\": false, \"correlationId\": \"abc-1\"\x7d"],
            Event.run "/sbin/shutdown" ["/sbin/shutdown", "-h", "now"],
            Event.printf "%s: %s" ["Could not exec shutdown", "exit status 1"]]) :=
  failed_command_logs_and_ends_process brokenShutdownEnv 3 shutdownDelivery [restartDelivery]
    (RadiodanCommand.mk "shutdown" "abc-1") [] "shutdown: Need to be root\n" "exit status 1"
    (by decide) (by decide) (by decide) (by decide)

theorem dials_failedAttempts (env : Env) (uri : String) :
    ∀ (n base : Nat), dials (failedAttempts env uri base n) = n := by
  intro n
  induction n with
  | zero => intro base; rfl
  | succ n ih =>
      intro base
      have h := ih (base + 1)
      simp only [dials] at h
      simp [failedAttempts, failedAttempt, dials, List.countP_append, List.countP_cons,
        Event.isDial, h]

theorem sleepEvents_failedAttempts (env : Env) (uri : String) :
    ∀ (n base : Nat),
      sleepEvents (failedAttempts env uri base n) = List.replicate n (Event.sleep 3) := by
  intro n
  induction n with
  | zero => intro base; rfl
  | succ n ih =>
      intro base
      have h := ih (base + 1)
      simp only [sleepEvents] at h
      simp [failedAttempts, failedAttempt, sleepEvents, List.filter_cons, Event.isSleep, h,
        List.replicate_succ]

/-- C9: if the first N dial attempts fail and attempt N+1 succeeds, then with
enough loop budget the connect loop returns the connection of attempt N+1 (the
dial numbered N from 0) after N failed rounds, each a dial, two log lines and
a wait of 3 seconds, followed by the successful dial and its log line: N+1
dials, N waits of 3 seconds, no exit; and `listenForCommand` goes on to the
setup sequence with that connection. -/
theorem connect_retries_until_dial_succeeds (env : Env) (host : String) (port : Int)
    (N fuel : Nat)
    (hfail : ∀ k, k < N → env.Dial k ≠ none) (hok : env.Dial N = none)
    (hfuel : N + 1 ≤ fuel) :
    connectLoop env (amqpUri host port) fuel false none []
        = (Outcome.ret (some N),
            failedAttempts env (amqpUri host port) 0 N
              ++ [Event.dial (amqpUri host port),
                  Event.printf "[*] Connected to %s" [amqpUri host port]])
      ∧ dials (connectLoop env (amqpUri host port) fuel false none []).2 = N + 1
      ∧ sleepEvents (connectLoop env (amqpUri host port) fuel false none []).2
          = List.replicate N (Event.sleep 3)
      ∧ listenForCommand env host port fuel []
          = setupAndConsume env (some N)
              (failedAttempts env (amqpUri host port) 0 N
                ++ [Event.dial (amqpUri host port),
                    Event.printf "[*] Connected to %s" [amqpUri host port]]) := by
  have h := connectLoop_retries env (amqpUri host port) N fuel [] none
    (by simpa [dials] using hfail) (by simpa [dials] using hok) hfuel
  simp only [dials, List.countP_nil, Nat.zero_add, List.nil_append] at h
  refine ⟨h, ?_, ?_, ?_⟩
  · rw [h]
    have hd := dials_failedAttempts env (amqpUri host port) N 0
    simp only [dials] at hd
    simp [dials, List.countP_append, List.countP_cons, Event.isDial, hd]
  · rw [h]
    have hs := sleepEvents_failedAttempts env (amqpUri host port) N 0
    simp only [sleepEvents] at hs
    simp [sleepEvents, List.filter_cons, Event.isSleep, hs]
  · simp [listenForCommand, bind_run, Go.bind, h]

/-- C9 with a broker that refuses two dials and accepts the third. -/
theorem connect_retries_witness :
    connectLoop lateBrokerEnv "amqp://localhost:5672" 5 false none []
      = (Outcome.ret (some 2),
          [Event.dial "amqp://localhost:5672",
            Event.printf "[!] Cannot connect" ["dial tcp: connection refused"],
            Event.printf "[*] Retry in 3 seconds" [], Event.sleep 3,
            Event.dial "amqp://localhost:5672",
            Event.printf "[!] Cannot connect" ["dial tcp: connection refused"],
            Event.printf "[*] Retry in 3 seconds" [], Event.sleep 3,
            Event.dial "amqp://localhost:5672",
            Event.printf "[*] Connected to %s" ["amqp://localhost:5672"]]) := by
  have h := connect_retries_until_dial_succeeds lateBrokerEnv "localhost" 5672 2 5
    (by decide) (by decide) (by decide)
  exact h.1

theorem response_false_ne_true (a b : String) : response false a ≠ response true b := by
  intro h
  have hd := congrArg String.data h
  simp [response, fmtBool, String.data_append] at hd

theorem replyOf_not_error (env : Env) (t : List Event) (cid key : String) (ch : Nat) :
    ¬ IsErrorReply (Event.publish ch "" key false false (replyOf env t cid false)) := by
  rintro ⟨ch1, x, k, a, b, msg, cid1, he, hb⟩
  injection he with _ _ _ _ _ hmsg
  subst hmsg
  exact response_false_ne_true cid cid1 hb

theorem not_publish_not_error (e : Event) (h : e.isPublish = false) : ¬ IsErrorReply e := by
  rintro ⟨ch1, x, k, a, b, msg, cid1, he, _⟩
  subst he
  simp [Event.isPublish] at h

/-- C10: whenever `processMessage` returns, its error is nil; so handling a
delivery is the then-branch alone (success Reply, then `execCmd`), and no run
of the program, nor of the consumer from a trace without one, holds a
`Publish` call whose body is a Reply with error true. -/
theorem error_reply_is_unreachable (env : Env) :
    (∀ m t t1 cmd err, processMessage env m t = (Outcome.ret (cmd, err), t1) → err = none)
      ∧ (∀ ch m, handleDelivery env ch m
          = (processMessage env m >>= fun r =>
              (replyToMessage env ch m r.1 false >>= fun _ => execCmd env r.1)))
      ∧ (∀ host port fuel, ∀ e ∈ (listenForCommand env host port fuel []).2,
          ¬ IsErrorReply e)
      ∧ (∀ ch msgs t, (∀ e ∈ t, ¬ IsErrorReply e) →
          ∀ e ∈ (consumer env ch msgs t).2, ¬ IsErrorReply e) := by
  refine ⟨fun m t t1 cmd err h => processMessage_ret env m t t1 cmd err h, ?_, ?_, ?_⟩
  · intro ch m
    funext t
    rcases hu : env.Unmarshal m.Body (RadiodanCommand.mk "" "") with ⟨c, e⟩
    cases e with
    | none =>
        simp [handleDelivery, bind_run, Go.bind, processMessage_ok env m c t hu]
    | some e =>
        simp [handleDelivery, bind_run, Go.bind, processMessage_err env m c e t hu]
  · intro host port fuel e he
    obtain ⟨new, h1, h2⟩ := emits_listenForCommand not_publish_not_error env host port fuel
      (fun ch t cid key => replyOf_not_error env t cid key ch) []
    rw [h1] at he
    exact h2 e (by simpa using he)
  · intro ch msgs t ht e he
    obtain ⟨new, h1, h2⟩ := emits_consumer not_publish_not_error env ch
      (fun t cid key => replyOf_not_error env t cid key ch) msgs t
    rw [h1] at he
    rcases List.mem_append.mp he with h | h
    · exact ht e h
    · exact h2 e h

end Cease
